import Mathlib

/-!
Verification of the gode-stats client library (github.com/Yeti47/gode-stats).

The development shallowly embeds the three components of the repository:

* the XP calculator (pkg/xp), whose Go code computes with float64 but whose
  formulas (floor(0.025 * sqrt xp) and ceil((level / 0.025)^2)) are exact in
  integer arithmetic on the ranges the specification speaks about, so the
  embedding uses exact arithmetic (Nat.sqrt, rationals) and separately proves
  agreement with the real-valued formulas;
* the error taxonomy (pkg/doc.go): Go error values form a linear Unwrap chain,
  embedded as the inductive type GoErr, with the classification predicates
  translated clause by clause;
* the API client (pkg/client/client.go): the HTTP transport, the JSON codec,
  URL path escaping and the clock are external collaborators, so the client
  operations are parameterised over them; each operation additionally returns
  the list of HTTP requests it handed to the transport, which makes the
  "no network call is made" properties expressible.
-/

namespace GodeStats

/-! ## XP calculator (pkg/xp, Calculator) -/

/-- LevelFactor from the Go source is 0.025 = 1/40.  GetLevel mirrors
Calculator.GetLevel: for negative XP it returns 0, otherwise
floor(0.025 * sqrt xp), which in exact arithmetic is Nat.sqrt xp / 40
(theorem claim_C5_getLevel proves the agreement with the real formula). -/
def GetLevel (xp : ℤ) : ℤ :=
  if xp < 0 then 0 else ((Nat.sqrt xp.toNat / 40 : ℕ) : ℤ)

/-- GetXpForLevel mirrors Calculator.GetXpForLevel: 0 for level <= 0, else
ceil((level / 0.025)^2).  Since (level / 0.025)^2 = 1600 * level^2 is an
integer, the ceiling is exact; lemma GetXpForLevel_eq_ceil records this. -/
def GetXpForLevel (level : ℤ) : ℤ :=
  if level ≤ 0 then 0 else 1600 * level ^ 2

/-- GetXpForNextLevel mirrors Calculator.GetXpForNextLevel. -/
def GetXpForNextLevel (xp : ℤ) : ℤ :=
  GetXpForLevel (GetLevel xp + 1)

/-- Body of Calculator.GetLevelPercentage after the two level thresholds have
been computed (lines 38-65 of the Go source), with the thresholds as
arguments so that the degenerate branch (nextLevelXP <= currentLevelXP,
reachable in Go only through int overflow) remains visible. -/
def levelPercentageCore (xp currentLevelXP nextLevelXP : ℤ) : ℚ :=
  if nextLevelXP ≤ currentLevelXP then 1
  else
    let xpInCurrentLevel := xp - currentLevelXP
    let xpNeededForNextLevel := nextLevelXP - currentLevelXP
    if xpNeededForNextLevel = 0 then 1
    else
      let percentage : ℚ := (xpInCurrentLevel : ℚ) / (xpNeededForNextLevel : ℚ)
      if percentage < 0 then 0
      else if 1 < percentage then 1
      else percentage

/-- GetLevelPercentage mirrors Calculator.GetLevelPercentage. -/
def GetLevelPercentage (xp : ℤ) : ℚ :=
  if xp < 0 then 0
  else levelPercentageCore xp (GetXpForLevel (GetLevel xp))
    (GetXpForLevel (GetLevel xp + 1))

/-- The Go source computes GetXpForLevel as int(math.Ceil(math.Pow(level/0.025, 2))).
In exact arithmetic the ceiling is the identity: (level / 0.025)^2 = 1600 * level^2. -/
lemma GetXpForLevel_eq_ceil (level : ℤ) (h : 1 ≤ level) :
    GetXpForLevel level = ⌈((level : ℝ) / 0.025) ^ 2⌉ := by
  have hne : ¬ level ≤ 0 := by omega
  have h1 : ((level : ℝ) / 0.025) ^ 2 = ((1600 * level ^ 2 : ℤ) : ℝ) := by
    push_cast
    norm_num
    ring
  rw [GetXpForLevel, if_neg hne, h1, Int.ceil_intCast]

/-- Helper: the floor of sqrt n / 40 over the reals is Nat.sqrt n / 40. -/
lemma floor_sqrt_div_forty (m : ℕ) :
    ⌊Real.sqrt (m : ℝ) / 40⌋ = ((Nat.sqrt m / 40 : ℕ) : ℤ) := by
  have h40 : ((40 : ℕ) : ℝ) = (40 : ℝ) := by norm_num
  have hnn : (0 : ℝ) ≤ Real.sqrt (m : ℝ) / 40 := by
    have := Real.sqrt_nonneg (m : ℝ)
    positivity
  rw [← Int.natCast_floor_eq_floor hnn]
  congr 1
  calc ⌊Real.sqrt (m : ℝ) / 40⌋₊
      = ⌊Real.sqrt (m : ℝ) / ((40 : ℕ) : ℝ)⌋₊ := by rw [h40]
    _ = ⌊Real.sqrt (m : ℝ)⌋₊ / 40 := Nat.floor_div_nat _ 40
    _ = Nat.sqrt m / 40 := by rw [Real.nat_floor_real_sqrt_eq_nat_sqrt]

/-- C5: for every integer xp >= 0, GetLevel xp equals floor(0.025 * sqrt xp);
for every integer xp < 0, GetLevel xp = 0 (negative input is clamped, not
rejected: the function is total and raises no error). -/
theorem claim_C5_getLevel (xp : ℤ) :
    (0 ≤ xp → GetLevel xp = ⌊(0.025 : ℝ) * Real.sqrt (xp : ℝ)⌋) ∧
    (xp < 0 → GetLevel xp = 0) := by
  constructor
  · intro hxp
    obtain ⟨m, rfl⟩ : ∃ m : ℕ, xp = (m : ℤ) :=
      ⟨xp.toNat, (Int.toNat_of_nonneg hxp).symm⟩
    have hne : ¬ ((m : ℤ) < 0) := by omega
    have hmul : (0.025 : ℝ) * Real.sqrt ((m : ℤ) : ℝ) = Real.sqrt (m : ℝ) / 40 := by
      rw [show (0.025 : ℝ) = 1 / 40 by norm_num]
      push_cast
      ring
    rw [GetLevel, if_neg hne, hmul, floor_sqrt_div_forty, Int.toNat_natCast]
  · intro hxp
    rw [GetLevel, if_pos hxp]

/-- Witness for claim C5 at the concrete inputs 9 and -3. -/
theorem claim_C5_getLevel_witness :
    GetLevel 9 = ⌊(0.025 : ℝ) * Real.sqrt ((9 : ℤ) : ℝ)⌋ ∧ GetLevel (-3) = 0 :=
  ⟨(claim_C5_getLevel 9).1 (by decide), (claim_C5_getLevel (-3)).2 (by decide)⟩

/-- C1: round-trip law.  For every integer level >= 1 (in particular for all
levels in [1, 1000]), GetLevel (GetXpForLevel level) = level: the minimum XP
for a level maps back to that level, because GetXpForLevel rounds up. -/
theorem claim_C1_roundTrip (level : ℤ) (h : 1 ≤ level) :
    GetLevel (GetXpForLevel level) = level := by
  obtain ⟨m, rfl⟩ : ∃ m : ℕ, level = (m : ℤ) :=
    ⟨level.toNat, (Int.toNat_of_nonneg (by omega)).symm⟩
  have hne : ¬ ((m : ℤ) ≤ 0) := by omega
  have hx : GetXpForLevel (m : ℤ) = ((1600 * m ^ 2 : ℕ) : ℤ) := by
    rw [GetXpForLevel, if_neg hne]
    push_cast
    ring
  have hnn : ¬ (((1600 * m ^ 2 : ℕ) : ℤ) < 0) := not_lt.mpr (Int.natCast_nonneg _)
  rw [hx, GetLevel, if_neg hnn, Int.toNat_natCast]
  have hsq : 1600 * m ^ 2 = (40 * m) * (40 * m) := by ring
  rw [hsq, Nat.sqrt_eq, Nat.mul_div_cancel_left m (by norm_num : 0 < 40)]

/-- Witness for claim C1 at level 7. -/
theorem claim_C1_roundTrip_witness :
    (1 : ℤ) ≤ 7 ∧ GetLevel (GetXpForLevel 7) = 7 :=
  ⟨by decide, claim_C1_roundTrip 7 (by decide)⟩

/-- Helper: the core computation is always clamped into [0, 1]. -/
lemma levelPercentageCore_mem (xp c n : ℤ) :
    0 ≤ levelPercentageCore xp c n ∧ levelPercentageCore xp c n ≤ 1 := by
  unfold levelPercentageCore
  dsimp only
  split_ifs with h1 h2 h3 h4
  · exact ⟨by norm_num, le_refl 1⟩
  · exact ⟨by norm_num, le_refl 1⟩
  · exact ⟨le_refl 0, by norm_num⟩
  · exact ⟨by norm_num, le_refl 1⟩
  · exact ⟨not_lt.mp h3, not_lt.mp h4⟩

/-- C6: GetLevelPercentage always lies in [0, 1]; it is exactly 0 for negative
XP; and in the degenerate branch where the next-level threshold does not
exceed the current-level threshold the computation returns exactly 1. -/
theorem claim_C6_percentageBounds :
    (∀ xp : ℤ, 0 ≤ GetLevelPercentage xp ∧ GetLevelPercentage xp ≤ 1 ∧
      (xp < 0 → GetLevelPercentage xp = 0)) ∧
    (∀ xp currentLevelXP nextLevelXP : ℤ, nextLevelXP ≤ currentLevelXP →
      levelPercentageCore xp currentLevelXP nextLevelXP = 1) := by
  constructor
  · intro xp
    refine ⟨?_, ?_, ?_⟩
    · rw [GetLevelPercentage]
      split_ifs with h
      · norm_num
      · exact (levelPercentageCore_mem _ _ _).1
    · rw [GetLevelPercentage]
      split_ifs with h
      · norm_num
      · exact (levelPercentageCore_mem _ _ _).2
    · intro hxp
      rw [GetLevelPercentage, if_pos hxp]
  · intro xp c n h
    rw [levelPercentageCore, if_pos h]

/-- Witness for claim C6 at xp = 4000 and at a degenerate threshold pair. -/
theorem claim_C6_percentageBounds_witness :
    (0 ≤ GetLevelPercentage 4000 ∧ GetLevelPercentage 4000 ≤ 1 ∧
      ((4000 : ℤ) < 0 → GetLevelPercentage 4000 = 0)) ∧
    levelPercentageCore 10 5 3 = 1 :=
  ⟨claim_C6_percentageBounds.1 4000, claim_C6_percentageBounds.2 10 5 3 (by decide)⟩

/-! ## Error taxonomy (pkg/doc.go) -/

/-- The seven sentinel errors declared in pkg/doc.go.  Each is a distinct
errors.New value, so identity comparison is modelled by equality of this
enumeration. -/
inductive Sentinel where
  | userNotFound
  | unauthorized
  | pulseTimestampTooOld
  | emptyUsername
  | networkFailure
  | invalidResponse
  | rateLimited
deriving DecidableEq, Repr

/-- Go error values reachable through this library.  nilE stands for the nil
error interface value; networkError and wrapf unwrap to their cause, every
other constructor is terminal for errors.Is and errors.As (neither *APIError
nor the sentinels define an Unwrap method).  wrapf models fmt.Errorf with a
%w verb, keeping the text before and after the wrapped error. -/
inductive GoErr where
  | nilE
  | sentinel (s : Sentinel)
  | apiError (statusCode : ℤ) (message endpoint : String)
  | networkError (operation url : String) (cause : GoErr)
  | errorString (msg : String)
  | wrapf (pre : String) (inner : GoErr) (suf : String)
deriving DecidableEq, Repr

/-- Message of each sentinel, verbatim from pkg/doc.go. -/
def sentinelMessage : Sentinel → String
  | .userNotFound => "user not found or profile is private"
  | .unauthorized => "unauthorized: API token is missing or invalid"
  | .pulseTimestampTooOld => "pulse timestamp is older than a week and will be rejected"
  | .emptyUsername => "username cannot be empty"
  | .networkFailure => "network error"
  | .invalidResponse => "invalid response from API"
  | .rateLimited => "API rate limit exceeded"

/-- Rendering of Error() for an error value.  APIError.Error and
NetworkError.Error follow the two format strings of pkg/doc.go; the fmt
package prints a nil error as the text between angle brackets. -/
def errorMessage : GoErr → String
  | .nilE => "<nil>"
  | .sentinel s => sentinelMessage s
  | .apiError statusCode message endpoint =>
      if endpoint = "" then
        "API error " ++ toString statusCode ++ ": " ++ message
      else
        "API error " ++ toString statusCode ++ " at " ++ endpoint ++ ": " ++ message
  | .networkError operation url cause =>
      if url = "" then
        "network error during " ++ operation ++ ": " ++ errorMessage cause
      else
        "network error during " ++ operation ++ " to " ++ url ++ ": " ++ errorMessage cause
  | .errorString msg => msg
  | .wrapf pre inner suf => pre ++ errorMessage inner ++ suf

/-- startsWithChars s p holds when p is an initial segment of s. -/
def startsWithChars : List Char → List Char → Bool
  | _, [] => true
  | [], _ :: _ => false
  | c :: cs, p :: ps => decide (c = p) && startsWithChars cs ps

/-- containsChars s p holds when p occurs as a contiguous substring of s,
matching the behaviour of strings.Contains. -/
def containsChars : List Char → List Char → Bool
  | [], p => startsWithChars [] p
  | s@(_ :: cs), p => startsWithChars s p || containsChars cs p

/-- String containment test used by the temporary-network heuristic. -/
def containsSubstr (s pat : String) : Bool :=
  containsChars s.toList pat.toList

/-- Substrings that NetworkError.IsTemporary looks for in the cause message. -/
def temporaryConditions : List String :=
  ["timeout", "connection refused", "no such host",
   "network is unreachable", "connection reset"]

/-- Method IsTemporary of APIError from pkg/doc.go: status at least 500 or
exactly 429 (http.StatusTooManyRequests). -/
def apiErrorIsTemporary (statusCode : ℤ) : Bool :=
  decide (500 ≤ statusCode) || decide (statusCode = 429)

/-- Method IsTemporary of NetworkError from pkg/doc.go: false when the
wrapped cause is nil, otherwise a substring check on the cause message. -/
def networkErrorIsTemporary (cause : GoErr) : Bool :=
  match cause with
  | .nilE => false
  | c => temporaryConditions.any fun t => containsSubstr (errorMessage c) t

/-- errors.Is against one of the sentinel errors: identity at the current
node, else follow Unwrap (NetworkError and wrapf values unwrap; a nil cause
ends the chain). -/
def errIs : GoErr → Sentinel → Bool
  | .sentinel s, t => decide (s = t)
  | .networkError _ _ cause, t => errIs cause t
  | .wrapf _ inner _, t => errIs inner t
  | _, _ => false

/-- errors.As with an APIError target: the fields of the first APIError on
the Unwrap chain. -/
def asAPIError : GoErr → Option (ℤ × String × String)
  | .apiError statusCode message endpoint => some (statusCode, message, endpoint)
  | .networkError _ _ cause => asAPIError cause
  | .wrapf _ inner _ => asAPIError inner
  | _ => none

/-- errors.As with a NetworkError target: the fields of the first
NetworkError on the Unwrap chain. -/
def asNetworkError : GoErr → Option (String × String × GoErr)
  | .networkError operation url cause => some (operation, url, cause)
  | .wrapf _ inner _ => asNetworkError inner
  | _ => none

/-- IsUserNotFound from pkg/doc.go. -/
def IsUserNotFound (err : GoErr) : Bool :=
  if err = .nilE then false
  else if errIs err .userNotFound then true
  else
    match asAPIError err with
    | some (statusCode, _, _) => decide (statusCode = 404)
    | none => false

/-- IsUnauthorized from pkg/doc.go. -/
def IsUnauthorized (err : GoErr) : Bool :=
  if err = .nilE then false
  else if errIs err .unauthorized then true
  else
    match asAPIError err with
    | some (statusCode, _, _) => decide (statusCode = 401)
    | none => false

/-- IsTemporary from pkg/doc.go: nil is not temporary; an APIError found by
errors.As decides first; otherwise a NetworkError found by errors.As
decides; everything else is not temporary. -/
def IsTemporary (err : GoErr) : Bool :=
  if err = .nilE then false
  else
    match asAPIError err with
    | some (statusCode, _, _) => apiErrorIsTemporary statusCode
    | none =>
      match asNetworkError err with
      | some (_, _, cause) => networkErrorIsTemporary cause
      | none => false

/-- IsRateLimited from pkg/doc.go. -/
def IsRateLimited (err : GoErr) : Bool :=
  if err = .nilE then false
  else if errIs err .rateLimited then true
  else
    match asAPIError err with
    | some (statusCode, _, _) => decide (statusCode = 429)
    | none => false

/-- IsNetworkError from pkg/doc.go. -/
def IsNetworkError (err : GoErr) : Bool :=
  if err = .nilE then false
  else if errIs err .networkFailure then true
  else (asNetworkError err).isSome

/-- Unwrap chain of an error value: the errors visited by errors.Is and
errors.As, starting at the value itself. -/
def chain : GoErr → List GoErr
  | .nilE => []
  | .networkError operation url cause =>
      .networkError operation url cause :: chain cause
  | .wrapf pre inner suf => .wrapf pre inner suf :: chain inner
  | e => [e]

/-- Field extractor used to locate APIError nodes on a chain. -/
def apiPart : GoErr → Option (ℤ × String × String)
  | .apiError statusCode message endpoint => some (statusCode, message, endpoint)
  | _ => none

/-- Field extractor used to locate NetworkError nodes on a chain. -/
def netPart : GoErr → Option (String × String × GoErr)
  | .networkError operation url cause => some (operation, url, cause)
  | _ => none

/-- The recursive errors.As traversal for APIError agrees with taking the
first APIError node on the Unwrap chain. -/
lemma asAPIError_eq_findSome (e : GoErr) :
    asAPIError e = (chain e).findSome? apiPart := by
  induction e with
  | nilE => rfl
  | sentinel s => rfl
  | apiError c m ep => rfl
  | networkError op url cause ih =>
      simp [asAPIError, chain, List.findSome?, apiPart, ih]
  | errorString m => rfl
  | wrapf p inner s ih =>
      simp [asAPIError, chain, List.findSome?, apiPart, ih]

/-- The recursive errors.As traversal for NetworkError agrees with taking
the first NetworkError node on the Unwrap chain. -/
lemma asNetworkError_eq_findSome (e : GoErr) :
    asNetworkError e = (chain e).findSome? netPart := by
  induction e with
  | nilE => rfl
  | sentinel s => rfl
  | apiError c m ep => rfl
  | networkError op url cause ih =>
      simp [asNetworkError, chain, List.findSome?, netPart]
  | errorString m => rfl
  | wrapf p inner s ih =>
      simp [asNetworkError, chain, List.findSome?, netPart, ih]

/-- C10: NetworkError.IsTemporary returns false when the wrapped cause is
nil, and so does the IsTemporary predicate on such a NetworkError: the
substring heuristic is only consulted on a non-nil cause, so the method is
total and never dereferences an absent cause. -/
theorem claim_C10_nilCauseNotTemporary (operation url : String) :
    networkErrorIsTemporary .nilE = false ∧
    IsTemporary (.networkError operation url .nilE) = false :=
  ⟨rfl, rfl⟩

/-- Witness for claim C10 at a concrete operation and URL. -/
theorem claim_C10_nilCauseNotTemporary_witness :
    networkErrorIsTemporary .nilE = false ∧
    IsTemporary (.networkError "GET request" "https://codestats.net" .nilE) = false :=
  claim_C10_nilCauseNotTemporary "GET request" "https://codestats.net"

/-- Reading of claim C3 as stated: the error is or wraps an APIError with
status at least 500 or equal to 429, or is or wraps a NetworkError whose own
IsTemporary returns true. -/
def specTemporaryC3 (e : GoErr) : Bool :=
  ((chain e).any fun x =>
    match apiPart x with
    | some (statusCode, _, _) => apiErrorIsTemporary statusCode
    | none => false) ||
  ((chain e).any fun x =>
    match netPart x with
    | some (_, _, cause) => networkErrorIsTemporary cause
    | none => false)

/-- C3 counterexample: a NetworkError whose cause is a non-temporary
APIError whose message mentions a timeout.  The claim as stated classifies
this value as temporary through its NetworkError clause, but IsTemporary
consults the APIError found by errors.As first and returns false. -/
theorem claim_C3_counterexample :
    IsTemporary (.networkError "GET request" "https://codestats.net/api/users/u"
      (.apiError 400 "timeout while rendering" "")) = false ∧
    specTemporaryC3 (.networkError "GET request" "https://codestats.net/api/users/u"
      (.apiError 400 "timeout while rendering" "")) = true := by
  constructor
  · rfl
  · decide

/-- C3 (amended): IsTemporary consults the first APIError on the Unwrap
chain first; only when no APIError occurs anywhere on the chain does the
first NetworkError decide, through its own IsTemporary.  The nil error is
not temporary and none of the seven sentinels is temporary. -/
theorem claim_C3_isTemporary_amended :
    (∀ e : GoErr,
      IsTemporary e = true ↔
        ((∃ statusCode message endpoint,
            (chain e).findSome? apiPart = some (statusCode, message, endpoint) ∧
            (500 ≤ statusCode ∨ statusCode = 429)) ∨
         ((chain e).findSome? apiPart = none ∧
          ∃ operation url cause,
            (chain e).findSome? netPart = some (operation, url, cause) ∧
            networkErrorIsTemporary cause = true))) ∧
    IsTemporary .nilE = false ∧
    (∀ s : Sentinel, IsTemporary (.sentinel s) = false) := by
  refine ⟨?_, rfl, fun s => rfl⟩
  intro e
  by_cases hnil : e = .nilE
  · subst hnil
    simp [IsTemporary, chain]
  rw [IsTemporary, if_neg hnil, ← asAPIError_eq_findSome, ← asNetworkError_eq_findSome]
  rcases hA : asAPIError e with _ | ⟨c, m, ep⟩
  · rcases hN : asNetworkError e with _ | ⟨op, url, cause⟩
    · simp [hA, hN]
    · simp [hA, hN]
      constructor
      · intro h
        exact ⟨op, url, cause, ⟨rfl, rfl, rfl⟩, h⟩
      · rintro ⟨o, u, c2, ⟨rfl, rfl, rfl⟩, h⟩
        exact h
  · simp [hA, apiErrorIsTemporary]

/-- Witness for the amended claim C3 at a concrete 503 APIError. -/
theorem claim_C3_isTemporary_amended_witness :
    IsTemporary (.apiError 503 "service unavailable" "") = true :=
  (claim_C3_isTemporary_amended.1 _).mpr
    (Or.inl ⟨503, "service unavailable", "", rfl, Or.inl (by norm_num)⟩)

/-! ## API client (pkg/client/client.go) -/

/-- DefaultBaseURL from pkg/client/client.go. -/
def DefaultBaseURL : String := "https://codestats.net"

/-- APIPrefix from pkg/client/client.go. -/
def APIPrefix : String := "/api"

/-- AuthHeader from pkg/client/client.go. -/
def AuthHeader : String := "X-API-Token"

/-- UserAgent from pkg/client/client.go. -/
def UserAgent : String := "gode-stats/1.0.0"

/-- An outbound HTTP request as the client hands it to the transport. -/
structure HttpRequest where
  method : String
  url : String
  headers : List (String × String)
  body : String
deriving DecidableEq, Repr

/-- Outcome of handing a request to the HTTP transport: a connection-level
failure carrying its cause, or an HTTP response with a status and a body. -/
inductive TransportResult where
  | failure (cause : GoErr)
  | response (status : ℤ) (body : String)
deriving DecidableEq, Repr

/-- LanguageXP from pkg/interfaces.go. -/
structure LanguageXP where
  language : String
  xp : ℤ
deriving DecidableEq, Repr

/-- Pulse from pkg/interfaces.go; the coded-at instant is in nanoseconds
like a Go time.Time. -/
structure Pulse where
  codedAt : ℤ
  xps : List LanguageXP
deriving DecidableEq, Repr

/-- MachineInfo and LanguageInfo from pkg/interfaces.go both carry xps and
new_xps totals. -/
structure XpInfo where
  xps : ℤ
  newXPs : ℤ
deriving DecidableEq, Repr

/-- UserProfile from pkg/interfaces.go, with the three Go maps embedded as
association lists. -/
structure UserProfile where
  user : String
  totalXP : ℤ
  newXP : ℤ
  machines : List (String × XpInfo)
  languages : List (String × XpInfo)
  dates : List (String × ℤ)
deriving DecidableEq, Repr

/-- Nanoseconds in a day; time.Now().AddDate(0, 0, -7) is modelled as the
current instant minus seven of these. -/
def nsPerDay : ℤ := 86400000000000

/-- Error-body handling shared by both operations: keep the raw body text
unless it decodes as JSON with a non-empty error field.  The decoder
argument stands for json.Unmarshal into the anonymous struct with the error
tag; it returns none when unmarshalling fails and the field value (possibly
empty) when it succeeds. -/
def errorMessageFromBody (decodeErrorField : String → Option String)
    (body : String) : String :=
  match decodeErrorField body with
  | some f => if f = "" then body else f
  | none => body

/-- GetUserProfile from pkg/client/client.go.  The JSON decoders, the URL
path escaper and the HTTP transport are external collaborators passed as
arguments; the second component of the result collects every request handed
to the transport, so an empty list means no network call was made.  Request
construction (http.NewRequestWithContext) is treated as always succeeding. -/
def getUserProfile (decodeErrorField : String → Option String)
    (pathEscape : String → String)
    (decodeProfile : String → Except String UserProfile)
    (baseURL : String) (transport : HttpRequest → TransportResult)
    (username : String) : Except GoErr UserProfile × List HttpRequest :=
  if username = "" then (.error (.sentinel .emptyUsername), [])
  else
    let endpoint := baseURL ++ APIPrefix ++ "/users/" ++ pathEscape username
    let req : HttpRequest :=
      { method := "GET", url := endpoint,
        headers := [("User-Agent", UserAgent), ("Accept", "application/json")],
        body := "" }
    match transport req with
    | .failure cause => (.error (.networkError "GET request" endpoint cause), [req])
    | .response status body =>
      if status = 404 then (.error (.sentinel .userNotFound), [req])
      else if status = 401 then (.error (.sentinel .unauthorized), [req])
      else if status = 429 then (.error (.sentinel .rateLimited), [req])
      else if status ≠ 200 then
        (.error (.apiError status (errorMessageFromBody decodeErrorField body) endpoint),
          [req])
      else
        match decodeProfile body with
        | .ok profile => (.ok profile, [req])
        | .error decodeErr =>
            (.error (.wrapf "" (.sentinel .invalidResponse) (": " ++ decodeErr)), [req])

/-- SendPulse from pkg/client/client.go, parameterised like getUserProfile;
now is the instant time.Now returns during the call. -/
def sendPulse (encodePulse : Pulse → Except String String)
    (decodeErrorField : String → Option String)
    (baseURL apiToken : String) (transport : HttpRequest → TransportResult)
    (now : ℤ) (pulse : Pulse) : Except GoErr Unit × List HttpRequest :=
  if apiToken = "" then (.error (.sentinel .unauthorized), [])
  else
    let weekAgo := now - 7 * nsPerDay
    if pulse.codedAt < weekAgo then (.error (.sentinel .pulseTimestampTooOld), [])
    else
      let endpoint := baseURL ++ APIPrefix ++ "/my/pulses"
      match encodePulse pulse with
      | .error encodeErr =>
          (.error (.wrapf "failed to serialize pulse: " (.errorString encodeErr) ""), [])
      | .ok pulseData =>
        let req : HttpRequest :=
          { method := "POST", url := endpoint,
            headers := [("User-Agent", UserAgent), ("Content-Type", "application/json"),
                        ("Accept", "application/json"), (AuthHeader, apiToken)],
            body := pulseData }
        match transport req with
        | .failure cause => (.error (.networkError "POST request" endpoint cause), [req])
        | .response status body =>
          if status = 201 then (.ok (), [req])
          else if status = 401 then (.error (.sentinel .unauthorized), [req])
          else if status = 429 then (.error (.sentinel .rateLimited), [req])
          else
            (.error (.apiError status (errorMessageFromBody decodeErrorField body) endpoint),
              [req])

/-- C7: GetUserProfile with the empty username fails immediately with the
dedicated empty-username sentinel and hands no request to the transport. -/
theorem claim_C7_emptyUsername (decodeErrorField : String → Option String)
    (pathEscape : String → String)
    (decodeProfile : String → Except String UserProfile)
    (baseURL : String) (transport : HttpRequest → TransportResult) :
    getUserProfile decodeErrorField pathEscape decodeProfile baseURL transport "" =
      (.error (.sentinel .emptyUsername), []) := rfl

/-- Witness for claim C7 at concrete collaborators. -/
theorem claim_C7_emptyUsername_witness :
    getUserProfile (fun _ => none) (fun s => s) (fun _ => .error "x")
      "https://codestats.net" (fun _ => .response 200 "") "" =
      (.error (.sentinel .emptyUsername), []) :=
  claim_C7_emptyUsername (fun _ => none) (fun s => s) (fun _ => .error "x")
    "https://codestats.net" (fun _ => .response 200 "")

/-- C4: status mapping of GetUserProfile on an HTTP response: 404, 401 and
429 map to the user-not-found, unauthorized and rate-limited sentinels, and
any other non-200 status yields an APIError carrying that status, the
endpoint, and the error-field message when the body decodes as JSON with a
non-empty error field, else the raw body text. -/
theorem claim_C4_statusMapping (decodeErrorField : String → Option String)
    (pathEscape : String → String)
    (decodeProfile : String → Except String UserProfile)
    (baseURL username : String) (status : ℤ) (body : String)
    (husername : username ≠ "") :
    (status = 404 →
      (getUserProfile decodeErrorField pathEscape decodeProfile baseURL
        (fun _ => .response status body) username).1 = .error (.sentinel .userNotFound)) ∧
    (status = 401 →
      (getUserProfile decodeErrorField pathEscape decodeProfile baseURL
        (fun _ => .response status body) username).1 = .error (.sentinel .unauthorized)) ∧
    (status = 429 →
      (getUserProfile decodeErrorField pathEscape decodeProfile baseURL
        (fun _ => .response status body) username).1 = .error (.sentinel .rateLimited)) ∧
    (status ≠ 200 → status ≠ 404 → status ≠ 401 → status ≠ 429 →
      (getUserProfile decodeErrorField pathEscape decodeProfile baseURL
        (fun _ => .response status body) username).1 =
        .error (.apiError status (errorMessageFromBody decodeErrorField body)
          (baseURL ++ APIPrefix ++ "/users/" ++ pathEscape username))) := by
  refine ⟨fun h => ?_, fun h => ?_, fun h => ?_, fun h200 h404 h401 h429 => ?_⟩
  · subst h
    simp [getUserProfile, husername]
  · subst h
    simp [getUserProfile, husername]
  · subst h
    simp [getUserProfile, husername]
  · simp [getUserProfile, husername, h200, h404, h401, h429]

/-- Witness for claim C4: a 500 response with a JSON-less body. -/
theorem claim_C4_statusMapping_witness :
    (getUserProfile (fun _ => none) (fun s => s) (fun _ => .error "x")
      "https://codestats.net" (fun _ => .response 500 "oops") "alice").1 =
      .error (.apiError 500 "oops" "https://codestats.net/api/users/alice") := by
  have h := (claim_C4_statusMapping (fun _ => none) (fun s => s) (fun _ => .error "x")
    "https://codestats.net" "alice" 500 "oops" (by decide)).2.2.2
    (by decide) (by decide) (by decide) (by decide)
  exact h

/-- C8: with a non-empty credential, a pulse whose coded-at instant is
earlier than the call time minus seven days fails with the
pulse-timestamp-too-old sentinel and hands no request to the transport. -/
theorem claim_C8_stalePulse (encodePulse : Pulse → Except String String)
    (decodeErrorField : String → Option String)
    (baseURL apiToken : String) (transport : HttpRequest → TransportResult)
    (now : ℤ) (pulse : Pulse)
    (htoken : apiToken ≠ "") (hstale : pulse.codedAt < now - 7 * nsPerDay) :
    sendPulse encodePulse decodeErrorField baseURL apiToken transport now pulse =
      (.error (.sentinel .pulseTimestampTooOld), []) := by
  rw [sendPulse, if_neg htoken]
  dsimp only
  rw [if_pos hstale]

/-- Witness for claim C8 at an eight-day-old pulse. -/
theorem claim_C8_stalePulse_witness :
    sendPulse (fun _ => .ok "d") (fun _ => none) "https://codestats.net" "token"
      (fun _ => .response 201 "") 0 { codedAt := -691200000000000, xps := [] } =
      (.error (.sentinel .pulseTimestampTooOld), []) :=
  claim_C8_stalePulse (fun _ => .ok "d") (fun _ => none) "https://codestats.net" "token"
    (fun _ => .response 201 "") 0 { codedAt := -691200000000000, xps := [] }
    (by decide) (by decide)

/-- C9: with an empty credential, SendPulse fails with the unauthorized
sentinel and no request regardless of the coded-at instant of the pulse: the
credential check precedes the staleness check. -/
theorem claim_C9_credentialCheckFirst (encodePulse : Pulse → Except String String)
    (decodeErrorField : String → Option String)
    (baseURL : String) (transport : HttpRequest → TransportResult)
    (now : ℤ) (pulse : Pulse) :
    sendPulse encodePulse decodeErrorField baseURL "" transport now pulse =
      (.error (.sentinel .unauthorized), []) := rfl

/-- Witness for claim C9 at a pulse that is also eight days old: the error
is the unauthorized sentinel, not the stale-timestamp one. -/
theorem claim_C9_credentialCheckFirst_witness :
    sendPulse (fun _ => .ok "d") (fun _ => none) "https://codestats.net" ""
      (fun _ => .response 201 "") 0 { codedAt := -691200000000000, xps := [] } =
      (.error (.sentinel .unauthorized), []) :=
  claim_C9_credentialCheckFirst (fun _ => .ok "d") (fun _ => none) "https://codestats.net"
    (fun _ => .response 201 "") 0 { codedAt := -691200000000000, xps := [] }

/-- C2 counterexample: a 429 response makes both operations return the
rate-limited sentinel, which satisfies IsRateLimited but, contrary to the
claim, is not classified temporary by IsTemporary (the sentinel is neither
an APIError nor a NetworkError). -/
theorem claim_C2_counterexample :
    (getUserProfile (fun _ => none) (fun s => s) (fun _ => .error "x") DefaultBaseURL
      (fun _ => .response 429 "") "alice").1 = .error (.sentinel .rateLimited) ∧
    (sendPulse (fun _ => .ok "d") (fun _ => none) DefaultBaseURL "token"
      (fun _ => .response 429 "") 0 { codedAt := 0, xps := [] }).1 =
      .error (.sentinel .rateLimited) ∧
    IsRateLimited (.sentinel .rateLimited) = true ∧
    IsTemporary (.sentinel .rateLimited) = false := by
  exact ⟨rfl, rfl, rfl, rfl⟩

/-- C2 (amended): a 429 response on either operation yields an error that
satisfies IsRateLimited; it is not temporary under IsTemporary, because both
operations return the rate-limited sentinel for a 429 response. -/
theorem claim_C2_rateLimited429_amended :
    (∀ (decodeErrorField : String → Option String) (pathEscape : String → String)
      (decodeProfile : String → Except String UserProfile)
      (baseURL username body : String),
      username ≠ "" →
      ∃ e, (getUserProfile decodeErrorField pathEscape decodeProfile baseURL
          (fun _ => .response 429 body) username).1 = .error e ∧
        IsRateLimited e = true ∧ IsTemporary e = false) ∧
    (∀ (encodePulse : Pulse → Except String String)
      (decodeErrorField : String → Option String)
      (baseURL apiToken body pulseData : String) (now : ℤ) (pulse : Pulse),
      apiToken ≠ "" → ¬ pulse.codedAt < now - 7 * nsPerDay →
      encodePulse pulse = .ok pulseData →
      ∃ e, (sendPulse encodePulse decodeErrorField baseURL apiToken
          (fun _ => .response 429 body) now pulse).1 = .error e ∧
        IsRateLimited e = true ∧ IsTemporary e = false) := by
  constructor
  · intro decodeErrorField pathEscape decodeProfile baseURL username body husername
    refine ⟨.sentinel .rateLimited, ?_, rfl, rfl⟩
    simp [getUserProfile, husername]
  · intro encodePulse decodeErrorField baseURL apiToken body pulseData now pulse
      htoken hfresh henc
    refine ⟨.sentinel .rateLimited, ?_, rfl, rfl⟩
    simp [sendPulse, htoken, hfresh, henc]

/-- Witness for the amended claim C2 on both operations. -/
theorem claim_C2_rateLimited429_amended_witness :
    (∃ e, (getUserProfile (fun _ => none) (fun s => s) (fun _ => .error "x")
        DefaultBaseURL (fun _ => .response 429 "") "alice").1 = .error e ∧
      IsRateLimited e = true ∧ IsTemporary e = false) ∧
    (∃ e, (sendPulse (fun _ => .ok "d") (fun _ => none) DefaultBaseURL "token"
        (fun _ => .response 429 "") 0 { codedAt := 0, xps := [] }).1 = .error e ∧
      IsRateLimited e = true ∧ IsTemporary e = false) :=
  ⟨claim_C2_rateLimited429_amended.1 (fun _ => none) (fun s => s) (fun _ => .error "x")
      DefaultBaseURL "alice" "" (by decide),
    claim_C2_rateLimited429_amended.2 (fun _ => .ok "d") (fun _ => none) DefaultBaseURL
      "token" "" "d" 0 { codedAt := 0, xps := [] } (by decide) (by decide) rfl⟩

end GodeStats
